import Mathlib

/-
  Verification of the weekly attendance tracking pipeline
  (weeklyAttTrackV2.py) against its specification.

  Modelling conventions:
  * Python floats are modelled as rationals (ℚ).  `round(x, 2)` is modelled
    by `round2` (half-up at two decimal places).  Claims that relate the
    code's formula to the spec's formula go through the same `round2`, so
    the exact tie-breaking of binary floats is immaterial to them.
  * Python dicts keyed by student number are modelled as insertion-ordered
    association lists (`dictGet` / `dictSet`), matching CPython dict
    semantics (first insertion fixes the position, updates keep it).
  * Rows produced by `read_csv` are well-typed records: the keys the code
    accesses (`student_number`, `ind_att_percent`, ...) are present.  Hence
    `row.get('ind_att_percent', None)` is modelled as `some _`; the `None`
    branches of the code are kept wherever they are reachable.
  * Python exceptions (KeyError, TypeError, UnboundLocalError, the errors
    raised by `pd.read_csv`) are modelled with `Except PyErr`.
-/

set_option maxHeartbeats 1000000

/-- The Python exceptions that the modelled code can raise. -/
inductive PyErr where
  /-- UnboundLocalError / NameError: a local referenced before assignment. -/
  | nameError
  /-- KeyError: missing dict key or missing DataFrame column. -/
  | keyError
  /-- TypeError: e.g. comparing `None < 90`. -/
  | typeError
  /-- FileNotFoundError from `pd.read_csv`. -/
  | fileNotFound
  /-- Any other exception raised while reading a source file. -/
  | readError
deriving Repr, DecidableEq

/-- Floor of a rational number (den is always positive, so `Int.fdiv` is floor). -/
def ratFloor (q : ℚ) : Int := Int.fdiv q.num (q.den : Int)

/-- Model of Python's `round(x, 2)`: round to two decimal places (half-up). -/
def round2 (q : ℚ) : ℚ := ((ratFloor (q * 100 + 1 / 2) : ℚ)) / 100

/-- One attendance row after column mapping, as consumed and produced by
`consolidate_attendance` and the comparison functions.  Raw extract rows
carry further columns (reporting school, segment, ...) that no modelled
code reads. -/
structure AttRow where
  student_number : Int
  name : String
  grade : Int
  hrs_attended : ℚ
  hrs_absent : ℚ
  hrs_possible : ℚ
  ind_att_percent : ℚ
deriving Repr, DecidableEq

/-- A row of the persisted base (ledger) file: attendance fields plus the
`weekly_value` age tag. -/
structure LedgerRow where
  row : AttRow
  weekly_value : Int
deriving Repr, DecidableEq

/-- A row of med.csv / medp.csv after column mapping. -/
structure MedRow where
  student_number : Int
  att_code : String
deriving Repr, DecidableEq

/-- The dynamic value held by the `attending_school` / `school_of_residence`
fields of a result record: absent (`.get` yields Python `None`), a numeric
school code copied from the demographic extract, or — after
`map_school_codes` — a school-name string. -/
inductive SchoolField where
  | unset
  | code (c : Int)
  | name (s : String)
deriving Repr, DecidableEq

/-- The per-student result record built by the pipeline.  Fields that the
Python code adds after `prime_results` are `Option`-typed, `none` meaning
the dict key is absent.  For `one_week_back_percent` and
`two_weeks_back_percent` the inner `Option ℚ` is the stored Python value
(`none` = Python `None`).  `medFullDays`, `medPartDays`, `medAbsencePercent`
and `bestCaseAttendancePercent` model the keys named 'Med Full days',
'Med Partial days', 'Med Absence Percent' and
'Best Case Attendance Percent' in the code. -/
structure ResultRec where
  student_number : Int
  name : String
  grade : Int
  current_week_att_percent : ℚ
  below_90_1_week : Bool
  one_week_back_percent : Option (Option ℚ) := none
  below_90_2_weeks : Option Bool := none
  trend_1_week : Option String := none
  two_weeks_back_percent : Option (Option ℚ) := none
  below_90_3_weeks : Option Bool := none
  trend_2_weeks : Option String := none
  attending_school : SchoolField := .unset
  school_of_residence : SchoolField := .unset
  medFullDays : Option Nat := none
  medPartDays : Option Nat := none
  medAbsencePercent : Option ℚ := none
  bestCaseAttendancePercent : Option ℚ := none
  attendance_category : Option String := none
deriving Repr, DecidableEq

/-- A Python dict keyed by student number, as an insertion-ordered
association list. -/
abbrev PyDict (β : Type) := List (Int × β)

/-- Dict lookup (`d[k]` / `d.get(k)`). -/
def dictGet {β : Type} : PyDict β → Int → Option β
  | [], _ => none
  | kv :: tl, k => if kv.1 == k then some kv.2 else dictGet tl k

/-- Dict assignment `d[k] = v`: update in place if the key exists, append
otherwise (CPython insertion-order semantics; dicts built from `[]` by
`dictSet` never hold a key twice). -/
def dictSet {β : Type} : PyDict β → Int → β → PyDict β
  | [], k, v => [(k, v)]
  | kv :: tl, k, v => if kv.1 == k then (k, v) :: tl else kv :: dictSet tl k v

/-- The results dict of the pipeline. -/
abbrev Results := PyDict ResultRec

/-- The state of one source file on disk. -/
inductive FileContent (α : Type) where
  /-- The file does not exist (`os.path.exists` is false). -/
  | missing
  /-- The file exists but `pd.read_csv` raises while reading it. -/
  | unreadable
  /-- The file exists and parses into the given rows (with the expected
  columns present). -/
  | content (rows : List α)
deriving Repr, DecidableEq

/-- A pandas DataFrame: whether the expected columns are present, and its
rows.  `pd.DataFrame()` (the fail-soft value returned by `read_csv` on
error) has no columns at all. -/
structure PyDF (α : Type) where
  hasCols : Bool
  rows : List α
deriving Repr, DecidableEq

/-- The empty `pd.DataFrame()` (no columns). -/
def PyDF.empty {α : Type} : PyDF α := ⟨false, []⟩

/-- The attempt inside the `try` block of `read_csv`: `pd.read_csv` plus
header strip and rename (the rename is reflected in the typed rows). -/
def read_csv_attempt {α : Type} : FileContent α → Except PyErr (PyDF α)
  | .missing => .error .fileNotFound
  | .unreadable => .error .readError
  | .content rows => .ok ⟨true, rows⟩

/-- `read_csv(file_path, column_mapping)`: catches every exception of the
attempt, prints a warning and returns an empty DataFrame instead.  The
second component is the warning message that was logged, if any. -/
def read_csv {α : Type} (f : FileContent α) : PyDF α × Option String :=
  match read_csv_attempt f with
  | .ok df => (df, none)
  | .error .fileNotFound => (PyDF.empty, some "Error: The file was not found.")
  | .error _ => (PyDF.empty, some "An error occurred while reading the file.")

/-- `df_to_dict`: DataFrame rows as a list of records. -/
def df_to_dict {α : Type} (df : PyDF α) : List α := df.rows

/-- `prepare_current_week_data`: tag every current-week record with
`weekly_value = -1`. -/
def prepare_current_week_data (current_week_data : List AttRow) : List LedgerRow :=
  current_week_data.map (fun s => ⟨s, -1⟩)

/-- `base_file_exists` (`os.path.exists`). -/
def base_file_exists {α : Type} (f : FileContent α) : Bool :=
  match f with
  | .missing => false
  | _ => true

/-- `clean_base_file`: drop rows whose `weekly_value` equals -3. -/
def clean_base_file (df : List LedgerRow) : List LedgerRow :=
  df.filter (fun e => e.weekly_value ≠ -3)

/-- Ageing of one ledger entry: `df['weekly_value'] = df['weekly_value'] - 1`. -/
def ageEntry (e : LedgerRow) : LedgerRow :=
  { e with weekly_value := e.weekly_value - 1 }

/-- File-system events emitted by `update_base_file`, in order. -/
inductive FsEvent where
  /-- `create_backup`: `shutil.copy2` of the base file to a timestamped name. -/
  | backupWrite
  /-- `df.to_csv(base_file_path)`: the base file is (over)written. -/
  | baseWrite
deriving Repr, DecidableEq

/-- The file system as far as the ledger is concerned: the base file and
the timestamped backup copies (in creation order, each holding the exact
pre-copy state of the base file). -/
structure FileSys where
  base : FileContent LedgerRow
  backups : List (FileContent LedgerRow)
deriving Repr, DecidableEq

/-- `create_backup`: copy the current base file to a fresh timestamped
backup file. -/
def create_backup (fs : FileSys) : FileSys :=
  { fs with backups := fs.backups ++ [fs.base] }

/-- `initialize_base_file`: write the current week at `weekly_value = -1`
as the entire base file. -/
def initialize_base_file (current_week_data : List AttRow) (fs : FileSys) : FileSys :=
  { fs with base := .content (prepare_current_week_data current_week_data) }

/-- `update_base_file(current_week_data, base_file_path, column_mapping)`.
Returns the new file system, the ordered list of file events, and the
exception outcome.  `testing` models the global `TESTING_MODE` flag.
If the base file exists but is unreadable, `read_csv` yields an empty
DataFrame and `df['weekly_value']` raises KeyError — after the backup was
made but before any write of the base file. -/
def update_base_file (testing : Bool) (current_week_data : List AttRow)
    (fs : FileSys) : FileSys × List FsEvent × Except PyErr Unit :=
  if testing then (fs, [], .ok ())
  else
    match fs.base with
    | .missing =>
        (initialize_base_file current_week_data fs,
         [.baseWrite], .ok ())
    | .unreadable =>
        (create_backup fs, [.backupWrite], .error .keyError)
    | .content rows =>
        let fs1 := create_backup fs
        let aged := clean_base_file (rows.map ageEntry)
        let updated := aged ++ prepare_current_week_data current_week_data
        ({ fs1 with base := .content updated },
         [.backupWrite, .baseWrite], .ok ())

/-- `read_previous_weeks`: read the base file and split it by
`weekly_value`.  On the empty (no-column) DataFrame the subscript
`df['weekly_value']` raises KeyError. -/
def read_previous_weeks (base_file : FileContent LedgerRow) :
    Except PyErr (List LedgerRow × List LedgerRow) :=
  let df := (read_csv base_file).1
  if df.hasCols then
    .ok (df.rows.filter (fun e => e.weekly_value == -1),
         df.rows.filter (fun e => e.weekly_value == -2))
  else
    .error .keyError

/-- The recursion inside `consolidate_attendance`.  `acc` is the
`consolidated_data` dict; `ap` is the local variable
`attendance_percentage`, `none` while it has not been assigned yet
(referencing it then raises UnboundLocalError).  After the per-record
accumulation, line 320/323 writes the student's percent, and the
unconditional line 326 (`... = round(attendance_percentage, 2)`)
overwrites it with the rounded current value of the local — which is the
stale value of a previous iteration whenever the running possible-hours
total is 0. -/
def consolidateGo : List AttRow → PyDict AttRow → Option ℚ →
    Except PyErr (PyDict AttRow)
  | [], acc, _ => .ok acc
  | record :: rest, acc, ap =>
    let sid := record.student_number
    let acc1 :=
      if acc.any (fun kv => kv.1 == sid) then acc
      else acc ++ [(sid,
        { student_number := sid, name := record.name, grade := record.grade,
          hrs_attended := 0, hrs_absent := 0, hrs_possible := 0,
          ind_att_percent := 0 })]
    match dictGet acc1 sid with
    | none => .error .keyError
    | some cd =>
      let cd1 := { cd with
        hrs_attended := cd.hrs_attended + record.hrs_attended,
        hrs_absent := cd.hrs_absent + record.hrs_absent,
        hrs_possible := cd.hrs_possible + record.hrs_possible }
      if (0 : ℚ) < cd1.hrs_possible then
        let ap1 := cd1.hrs_attended / cd1.hrs_possible * 100
        consolidateGo rest
          (dictSet acc1 sid { cd1 with ind_att_percent := round2 ap1 })
          (some ap1)
      else
        match ap with
        | none => .error .nameError
        | some apv =>
          consolidateGo rest
            (dictSet acc1 sid { cd1 with ind_att_percent := round2 apv })
            (some apv)

/-- `consolidate_attendance`: fold all rows, then keep only the students
whose total possible hours are positive, in insertion order. -/
def consolidate_attendance (attendance_data : List AttRow) :
    Except PyErr (List AttRow) :=
  (consolidateGo attendance_data [] none).map (fun acc =>
    (acc.map (fun kv => kv.2)).filter (fun d => (0 : ℚ) < d.hrs_possible))

/-- `input_attendance_data`: read and consolidate the current week, then —
if the base file exists — split it into the one- and two-weeks-back
snapshots.  The Python dicts of the prior weeks keep the `weekly_value`
key, which no downstream code reads; the model drops it via `.row`. -/
def input_attendance_data (new_report : FileContent AttRow)
    (base_file : FileContent LedgerRow) :
    Except PyErr (List AttRow × List AttRow × List AttRow) :=
  match consolidate_attendance (df_to_dict (read_csv new_report).1) with
  | .error e => .error e
  | .ok current_week_data =>
    if base_file_exists base_file then
      match read_previous_weeks base_file with
      | .error e => .error e
      | .ok (w1, w2) =>
        .ok (current_week_data, w1.map (fun e => e.row), w2.map (fun e => e.row))
    else
      .ok (current_week_data, [], [])

/-- The record that `prime_results` stores for one current-week student. -/
def primeRec (s : AttRow) : ResultRec :=
  { student_number := s.student_number, name := s.name, grade := s.grade,
    current_week_att_percent := s.ind_att_percent,
    below_90_1_week := decide (s.ind_att_percent < (90 : ℚ)) }

/-- `prime_results`: one entry per current-week student.  In the typed
model every row carries `student_number` and `ind_att_percent`, so the
warning branch for malformed rows is unreachable. -/
def prime_results (current_week_data : List AttRow) : Results :=
  current_week_data.foldl (fun r s => dictSet r s.student_number (primeRec s)) []

/-- `next((s for s in data if s['student_number'] == student_id), None)`. -/
def findStudent (data : List AttRow) (i : Int) : Option AttRow :=
  data.find? (fun s => s.student_number == i)

/-- The trend expression for a present prior percent: `'Up'` if current >
prior, `'Down'` if current < prior, else `'No Change'`. -/
def trendLabel (cur prior : ℚ) : String :=
  if cur > prior then "Up" else if cur < prior then "Down" else "No Change"

/-- The loop of `compare_one_week_back`.  `stale` is the local variable
`one_week_att_percent`: `none` while unbound (referencing it raises
UnboundLocalError); the inner `Option ℚ` is its Python value.  The code
assigns it only when a one-week-back match is found, so an unmatched
student reuses the value left over from an earlier iteration. -/
def compareOneGo (one_week_back_data : List AttRow) :
    List AttRow → Option (Option ℚ) → Results → Except PyErr Results
  | [], _, r => .ok r
  | student :: rest, stale, r =>
    let stale1 :=
      match findStudent one_week_back_data student.student_number with
      | some m => some (some m.ind_att_percent)
      | none => stale
    match stale1 with
    | none => .error .nameError
    | some v =>
      let below_90_2_weeks :=
        decide (student.ind_att_percent < (90 : ℚ)) &&
          (match v with
           | some p => decide (p < (90 : ℚ))
           | none => false)
      let trend :=
        match v with
        | some p => trendLabel student.ind_att_percent p
        | none => "N/A"
      match dictGet r student.student_number with
      | none => .error .keyError
      | some rec =>
        compareOneGo one_week_back_data rest (some v)
          (dictSet r student.student_number
            { rec with
              one_week_back_percent := some v,
              below_90_2_weeks := some below_90_2_weeks,
              trend_1_week := some trend })

/-- `compare_one_week_back`: no-op on an empty one-week-back snapshot. -/
def compare_one_week_back (current_week_data one_week_back_data : List AttRow)
    (results : Results) : Except PyErr Results :=
  if one_week_back_data.isEmpty then .ok results
  else compareOneGo one_week_back_data current_week_data none results

/-- The loop of `compare_two_weeks_back`: only matched students are
updated.  `below_90_3_weeks` evaluates
`cur < 90 and results[id]['one_week_back_percent'] < 90 and two < 90`
left-to-right with short-circuiting: reading the missing key raises
KeyError, comparing a stored Python `None` with 90 raises TypeError. -/
def compareTwoGo (two_weeks_back_data : List AttRow) :
    List AttRow → Results → Except PyErr Results
  | [], r => .ok r
  | student :: rest, r =>
    match findStudent two_weeks_back_data student.student_number with
    | none => compareTwoGo two_weeks_back_data rest r
    | some m =>
      match dictGet r student.student_number with
      | none => .error .keyError
      | some rec =>
        let upd := fun (b3 : Bool) =>
          compareTwoGo two_weeks_back_data rest
            (dictSet r student.student_number
              { rec with
                two_weeks_back_percent := some (some m.ind_att_percent),
                below_90_3_weeks := some b3,
                trend_2_weeks :=
                  some (trendLabel student.ind_att_percent m.ind_att_percent) })
        if student.ind_att_percent < (90 : ℚ) then
          match rec.one_week_back_percent with
          | none => .error .keyError
          | some none => .error .typeError
          | some (some p) =>
            upd (decide (p < (90 : ℚ)) && decide (m.ind_att_percent < (90 : ℚ)))
        else
          upd false

/-- `compare_two_weeks_back`: no-op on an empty two-weeks-back snapshot. -/
def compare_two_weeks_back (current_week_data two_weeks_back_data : List AttRow)
    (results : Results) : Except PyErr Results :=
  if two_weeks_back_data.isEmpty then .ok results
  else compareTwoGo two_weeks_back_data current_week_data results

/-- `flag_attendance_issues`: prime, then the two comparisons in order. -/
def flag_attendance_issues (current_week one_week_back two_weeks_back : List AttRow) :
    Except PyErr Results :=
  match compare_one_week_back current_week one_week_back (prime_results current_week) with
  | .error e => .error e
  | .ok r1 => compare_two_weeks_back current_week two_weeks_back r1

/-- The constant `TOTAL_SCHOOL_DAYS = 160`. -/
def TOTAL_SCHOOL_DAYS : ℚ := 160

/-- `calculate_med_absence_percentage`: full and part-day MED counts are
weighted identically. -/
def calculate_med_absence_percentage (med_full_days med_part_days : Nat) : ℚ :=
  if TOTAL_SCHOOL_DAYS = 0 then 0
  else round2 (((med_full_days + med_part_days : Nat) : ℚ) / TOTAL_SCHOOL_DAYS * 100)

/-- The MED/MEDP section of `process_additional_data` (lines 582-615): count
the med.csv and medp.csv rows per student, then set the four derived
fields on every result record.  The demographic and probation sections of
the same function touch disjoint fields.  `data.get('current_week_att_percent', 0)`
always finds the key, which `prime_results` set. -/
def process_additional_data_med (med_data medp_data : List MedRow)
    (results : Results) : Results :=
  results.map (fun kv =>
    let med_full_days := med_data.countP (fun rec => rec.student_number == kv.1)
    let med_part_days := medp_data.countP (fun rec => rec.student_number == kv.1)
    let med_absence_percent :=
      calculate_med_absence_percentage med_full_days med_part_days
    (kv.1, { kv.2 with
      medFullDays := some med_full_days,
      medPartDays := some med_part_days,
      medAbsencePercent := some med_absence_percent,
      bestCaseAttendancePercent :=
        some (min (kv.2.current_week_att_percent + med_absence_percent) 100) }))

/-- `filter_subset_by_conditions`: the chained DataFrame filters selecting
the intervention-letter subset.  A pandas comparison of an absent (NaN)
value with `True` or `'Down'` is false, which the `Option` equality
mirrors. -/
def filter_subset_by_conditions (df : List ResultRec) : List ResultRec :=
  let df1 := df.filter (fun r =>
    r.below_90_3_weeks == some true && decide (r.current_week_att_percent < (90 : ℚ)))
  let df2 := df1.filter (fun r => r.trend_2_weeks == some "Down")
  let df3 := df2.filter (fun r => r.trend_1_week == some "Down")
  let df4 := df3.filter (fun r => r.below_90_2_weeks == some true)
  let df5 := df4.filter (fun r => r.below_90_1_week == true)
  df5.filter (fun r => decide (r.current_week_att_percent ≥ (70 : ℚ)))

/-- The name a school field is mapped to by `map_school_codes`.  A code
present in the school dict maps to its name; everything else maps to the
f-string `"Unknown School (Code: ...)"`.  A field never set reads as
Python `None`, which is not a dict key, giving
`"Unknown School (Code: None)"`; a string value is never a key of the
int-keyed dict either. -/
def schoolName (school_dict : List (Int × String)) : SchoolField → String
  | .code c =>
    match school_dict.find? (fun kv => kv.1 == c) with
    | some kv => kv.2
    | none => "Unknown School (Code: " ++ toString c ++ ")"
  | .unset => "Unknown School (Code: None)"
  | .name s => "Unknown School (Code: " ++ s ++ ")"

/-- `map_school_codes`: rewrite both school fields of every record through
the school dict. -/
def map_school_codes (results : Results) (school_dict : List (Int × String)) :
    Results :=
  results.map (fun kv =>
    (kv.1, { kv.2 with
      attending_school := .name (schoolName school_dict kv.2.attending_school),
      school_of_residence := .name (schoolName school_dict kv.2.school_of_residence) }))

/-- The comparison `data.get('school_of_residence') != 'Unknown School (Code: None)'`:
only a string field equal to the sentinel compares equal; an int code or a
Python `None` differs from any string. -/
def residenceIsUnknownNone : SchoolField → Bool
  | .name s => s == "Unknown School (Code: None)"
  | _ => false

/-- `filter_unknown_schools`: the dict comprehension keeping every record
whose residence is not the `"Unknown School (Code: None)"` sentinel. -/
def filter_unknown_schools (results : Results) : Results :=
  results.filter (fun kv => !residenceIsUnknownNone kv.2.school_of_residence)

/-- The ledger-relevant skeleton of `main`: read and consolidate, run the
three comparison stages, and — only when `TESTING_MODE` is off — update
the base file.  Returns the results, the final file system and the file
events. -/
def attendance_run (testing : Bool) (new_report : FileContent AttRow)
    (fs : FileSys) : Except PyErr Results × FileSys × List FsEvent :=
  match input_attendance_data new_report fs.base with
  | .error e => (.error e, fs, [])
  | .ok (cur, w1, w2) =>
    match flag_attendance_issues cur w1 w2 with
    | .error e => (.error e, fs, [])
    | .ok results =>
      if testing then (.ok results, fs, [])
      else
        let u := update_base_file testing cur fs
        (.ok results, u.1, u.2.1)

/-- Decidable equality of `Except` values, for evaluating the modelled
functions on concrete inputs. -/
instance {ε α : Type} [DecidableEq ε] [DecidableEq α] : DecidableEq (Except ε α) := fun x y =>
  match x, y with
  | .ok a, .ok b =>
    if h : a = b then .isTrue (by rw [h]) else .isFalse (fun hc => by cases hc; exact h rfl)
  | .error a, .error b =>
    if h : a = b then .isTrue (by rw [h]) else .isFalse (fun hc => by cases hc; exact h rfl)
  | .ok _, .error _ => .isFalse (fun hc => by cases hc)
  | .error _, .ok _ => .isFalse (fun hc => by cases hc)

/- Concrete inputs used to evaluate the modelled functions. -/

/-- A raw row whose possible hours are 0 (e.g. a student enrolled with no
eligible hours yet). -/
def zeroHoursRow : AttRow :=
  { student_number := 7, name := "Z", grade := 3,
    hrs_attended := 0, hrs_absent := 0, hrs_possible := 0, ind_att_percent := 0 }

/-- Current-week row of student 1 at 80 percent. -/
def c4RowA : AttRow :=
  { student_number := 1, name := "A", grade := 5,
    hrs_attended := 8, hrs_absent := 2, hrs_possible := 10, ind_att_percent := 80 }

/-- Current-week row of student 2 at 80 percent. -/
def c4RowB : AttRow :=
  { student_number := 2, name := "B", grade := 5,
    hrs_attended := 8, hrs_absent := 2, hrs_possible := 10, ind_att_percent := 80 }

/-- One-week-back row: student 1 was at 95 percent.  Student 2 has no
one-week-back row. -/
def c4Prior95 : AttRow :=
  { student_number := 1, name := "A", grade := 5,
    hrs_attended := 19, hrs_absent := 1, hrs_possible := 20, ind_att_percent := 95 }

/-- Current-week row of student 1 at 80 percent (C1 witness input). -/
def c1Cur80 : AttRow :=
  { student_number := 1, name := "C", grade := 6,
    hrs_attended := 8, hrs_absent := 2, hrs_possible := 10, ind_att_percent := 80 }

/-- One-week-back row of student 1 at 85 percent (C1 witness input). -/
def c1Prior85 : AttRow :=
  { student_number := 1, name := "C", grade := 6,
    hrs_attended := 17, hrs_absent := 3, hrs_possible := 20, ind_att_percent := 85 }

/-- Two-weeks-back row of student 1 at 95 percent (C1 witness input). -/
def c1Prior95 : AttRow :=
  { student_number := 1, name := "C", grade := 6,
    hrs_attended := 19, hrs_absent := 1, hrs_possible := 20, ind_att_percent := 95 }

/-- The results dict after `compare_one_week_back` on the C1 witness input. -/
def c1Res1 : Results :=
  [(1, { student_number := 1, name := "C", grade := 6,
         current_week_att_percent := 80, below_90_1_week := true,
         one_week_back_percent := some (some 85),
         below_90_2_weeks := some true, trend_1_week := some "Down" })]

/-- The final record of student 1 on the C1 witness input. -/
def c1RecOut : ResultRec :=
  { student_number := 1, name := "C", grade := 6,
    current_week_att_percent := 80, below_90_1_week := true,
    one_week_back_percent := some (some 85),
    below_90_2_weeks := some true, trend_1_week := some "Down",
    two_weeks_back_percent := some (some 95),
    below_90_3_weeks := some false, trend_2_weeks := some "Down" }

/-- The results dict after `compare_two_weeks_back` on the C1 witness input. -/
def c1Res2 : Results := [(1, c1RecOut)]

/-- A ledger with one entry one week old and one entry two weeks old. -/
def c3Rows : List LedgerRow :=
  [⟨c4RowA, -1⟩, ⟨c4Prior95, -2⟩]

/-- A file system whose base file holds `c3Rows` and has no backups yet. -/
def c3Fs : FileSys := { base := .content c3Rows, backups := [] }

/-- A file system used for the backup-order witness. -/
def c5Fs : FileSys := { base := .content [⟨c4RowB, -1⟩], backups := [] }

/-- A result record that satisfies all intervention-letter conditions. -/
def c6LetterRec : ResultRec :=
  { student_number := 3, name := "L", grade := 7,
    current_week_att_percent := 80, below_90_1_week := true,
    one_week_back_percent := some (some 85),
    below_90_2_weeks := some true, trend_1_week := some "Down",
    two_weeks_back_percent := some (some 88),
    below_90_3_weeks := some true, trend_2_weeks := some "Down" }

/-- med.csv rows of the C7 witness: student 5 has two full MED days. -/
def c7Med : List MedRow := [⟨5, "MED"⟩, ⟨5, "MED"⟩]

/-- medp.csv rows of the C7 witness: student 5 has one part MED day. -/
def c7Medp : List MedRow := [⟨5, "MEDP"⟩]

/-- Results dict of the C7 witness: student 5 at 83.33 percent. -/
def c7Res : Results :=
  [(5, { student_number := 5, name := "M", grade := 8,
         current_week_att_percent := 83.33, below_90_1_week := true })]

/-- The record of student 5 after the MED/MEDP merge of the C7 witness. -/
def c7RecOut : ResultRec :=
  { student_number := 5, name := "M", grade := 8,
    current_week_att_percent := 83.33, below_90_1_week := true,
    medFullDays := some 2, medPartDays := some 1,
    medAbsencePercent := some 1.88,
    bestCaseAttendancePercent := some 85.21 }

/-- A current-week row with positive possible hours (C8 witness input). -/
def c8Row : AttRow :=
  { student_number := 9, name := "R", grade := 2,
    hrs_attended := 10, hrs_absent := 0, hrs_possible := 10, ind_att_percent := 100 }

/-- A school dict with a single known code (C10 witness input). -/
def c10Dict : List (Int × String) := [(1, "High School 1")]

/-- Results dict of the C10 witness: student 2 has no residence code set
(the demographic extract had no row for the student). -/
def c10Res : Results :=
  [(2, { student_number := 2, name := "U", grade := 4,
         current_week_att_percent := 91, below_90_1_week := false,
         attending_school := .code 1, school_of_residence := .unset })]

/- Helper lemmas about the dict model. -/

theorem dictGet_dictSet_self {β : Type} (r : PyDict β) (k : Int) (v : β) :
    dictGet (dictSet r k v) k = some v := by
  induction r with
  | nil => simp [dictGet, dictSet]
  | cons kv tl ih =>
    by_cases h : kv.1 = k
    · simp [dictGet, dictSet, h]
    · simp [dictGet, dictSet, h, ih]

theorem dictGet_dictSet_ne {β : Type} (r : PyDict β) (k i : Int) (v : β)
    (h : i ≠ k) : dictGet (dictSet r k v) i = dictGet r i := by
  have hki : ¬(k = i) := fun hc => h hc.symm
  induction r with
  | nil => simp [dictGet, dictSet, hki]
  | cons kv tl ih =>
    by_cases hk : kv.1 = k
    · simp [dictGet, dictSet, hk, hki]
    · by_cases hi : kv.1 = i
      · simp [dictGet, dictSet, hk, hi, h]
      · simp [dictGet, dictSet, hk, hi, ih]

theorem dictGet_dictSet {β : Type} (r : PyDict β) (k i : Int) (v : β) :
    dictGet (dictSet r k v) i = if i = k then some v else dictGet r i := by
  by_cases h : i = k
  · subst h; simp [dictGet_dictSet_self]
  · simp [h, dictGet_dictSet_ne r k i v h]

/- Helper lemmas about the comparison loops. -/

theorem findStudent_not_nil {l : List AttRow} {i : Int} {m : AttRow}
    (h : findStudent l i = some m) : l.isEmpty = false := by
  cases l with
  | nil => simp [findStudent] at h
  | cons a t => rfl

theorem compareOneGo_frame (w1 : List AttRow) (i : Int) :
    ∀ (l : List AttRow) (st : Option (Option ℚ)) (r r' : Results),
      compareOneGo w1 l st r = .ok r' →
      (∀ d ∈ l, d.student_number ≠ i) →
      dictGet r' i = dictGet r i := by
  intro l
  induction l with
  | nil =>
    intro st r r' hok _
    simp only [compareOneGo] at hok
    cases hok
    rfl
  | cons s rest ih =>
    intro st r r' hok hno
    have hsi : s.student_number ≠ i := hno s (List.mem_cons_self s rest)
    have hrest : ∀ d ∈ rest, d.student_number ≠ i :=
      fun d hd => hno d (List.mem_cons_of_mem s hd)
    simp only [compareOneGo] at hok
    split at hok
    · exact absurd hok (by simp)
    · split at hok
      · exact absurd hok (by simp)
      · rw [ih _ _ _ hok hrest, dictGet_dictSet_ne _ _ _ _ (Ne.symm hsi)]

theorem compareOneGo_found (w1 : List AttRow) (i : Int) (c m1 : AttRow)
    (hm : findStudent w1 i = some m1) :
    ∀ (l : List AttRow) (st : Option (Option ℚ)) (r r' : Results),
      compareOneGo w1 l st r = .ok r' →
      (∀ d ∈ l, d.student_number = i → d = c) →
      (∃ d ∈ l, d.student_number = i) →
      ∃ rec, dictGet r' i = some rec ∧
        rec.one_week_back_percent = some (some m1.ind_att_percent) ∧
        rec.below_90_2_weeks =
          some (decide (c.ind_att_percent < (90 : ℚ)) &&
            decide (m1.ind_att_percent < (90 : ℚ))) ∧
        rec.trend_1_week = some (trendLabel c.ind_att_percent m1.ind_att_percent) := by
  intro l
  induction l with
  | nil =>
    intro st r r' _ _ hex
    simp at hex
  | cons s rest ih =>
    intro st r r' hok hocc hex
    by_cases hsi : s.student_number = i
    · have hsc : s = c := hocc s (List.mem_cons_self s rest) hsi
      subst hsc
      simp only [compareOneGo, hsi, hm] at hok
      cases hg : dictGet r i with
      | none => rw [hg] at hok; exact absurd hok (by simp)
      | some rec0 =>
        rw [hg] at hok
        by_cases hrest : ∃ d ∈ rest, d.student_number = i
        · exact ih _ _ _ hok
            (fun d hd hdi => hocc d (List.mem_cons_of_mem s hd) hdi) hrest
        · have hfr := compareOneGo_frame w1 i rest _ _ _ hok
            (fun d hd hdi => hrest ⟨d, hd, hdi⟩)
          rw [dictGet_dictSet_self] at hfr
          exact ⟨_, hfr, rfl, rfl, rfl⟩
    · simp only [compareOneGo] at hok
      split at hok
      · exact absurd hok (by simp)
      · split at hok
        · exact absurd hok (by simp)
        · have hex' : ∃ d ∈ rest, d.student_number = i := by
            rcases hex with ⟨d, hd, hdi⟩
            cases List.mem_cons.mp hd with
            | inl h => exact absurd (h ▸ hdi) hsi
            | inr h => exact ⟨d, h, hdi⟩
          exact ih _ _ _ hok
            (fun d hd hdi => hocc d (List.mem_cons_of_mem s hd) hdi) hex'

theorem compareTwoGo_frame (w2 : List AttRow) (i : Int) :
    ∀ (l : List AttRow) (r r' : Results),
      compareTwoGo w2 l r = .ok r' →
      (∀ d ∈ l, d.student_number ≠ i) →
      dictGet r' i = dictGet r i := by
  intro l
  induction l with
  | nil =>
    intro r r' hok _
    simp only [compareTwoGo] at hok
    cases hok
    rfl
  | cons s rest ih =>
    intro r r' hok hno
    have hsi : s.student_number ≠ i := hno s (List.mem_cons_self s rest)
    have hrest : ∀ d ∈ rest, d.student_number ≠ i :=
      fun d hd => hno d (List.mem_cons_of_mem s hd)
    simp only [compareTwoGo] at hok
    split at hok
    · exact ih _ _ hok hrest
    · split at hok
      · exact absurd hok (by simp)
      · split at hok
        · split at hok
          · exact absurd hok (by simp)
          · exact absurd hok (by simp)
          · rw [ih _ _ hok hrest, dictGet_dictSet_ne _ _ _ _ (Ne.symm hsi)]
        · rw [ih _ _ hok hrest, dictGet_dictSet_ne _ _ _ _ (Ne.symm hsi)]

theorem compareTwoGo_found (w2 : List AttRow) (i : Int) (c m2 : AttRow) (p : ℚ)
    (hm : findStudent w2 i = some m2) :
    ∀ (l : List AttRow) (r r' : Results),
      compareTwoGo w2 l r = .ok r' →
      (∀ d ∈ l, d.student_number = i → d = c) →
      (∃ d ∈ l, d.student_number = i) →
      ∀ rec, dictGet r i = some rec →
        rec.one_week_back_percent = some (some p) →
        ∃ rec2, dictGet r' i = some rec2 ∧
          rec2.below_90_3_weeks =
            some (decide (c.ind_att_percent < (90 : ℚ)) &&
              (decide (p < (90 : ℚ)) && decide (m2.ind_att_percent < (90 : ℚ)))) ∧
          rec2.one_week_back_percent = some (some p) ∧
          rec2.below_90_2_weeks = rec.below_90_2_weeks ∧
          rec2.two_weeks_back_percent = some (some m2.ind_att_percent) ∧
          rec2.trend_2_weeks = some (trendLabel c.ind_att_percent m2.ind_att_percent) := by
  intro l
  induction l with
  | nil =>
    intro r r' _ _ hex
    simp at hex
  | cons s rest ih =>
    intro r r' hok hocc hex
    by_cases hsi : s.student_number = i
    · have hsc : s = c := hocc s (List.mem_cons_self s rest) hsi
      subst hsc
      intro rec hrec howbp
      simp only [compareTwoGo, hsi, hm, hrec] at hok
      have hoccr : ∀ d ∈ rest, d.student_number = i → d = s :=
        fun d hd hdi => hocc d (List.mem_cons_of_mem s hd) hdi
      by_cases h90 : s.ind_att_percent < (90 : ℚ)
      · rw [if_pos h90] at hok
        simp only [howbp] at hok
        by_cases hrest : ∃ d ∈ rest, d.student_number = i
        · have := ih _ _ hok hoccr hrest _
            (by rw [dictGet_dictSet_self]) (by rfl)
          rcases this with ⟨rec2, hget, hb3, howbp2, hb2, htw, htr⟩
          exact ⟨rec2, hget, hb3, howbp2, hb2, htw, htr⟩
        · have hfr := compareTwoGo_frame w2 i rest _ _ hok
            (fun d hd hdi => hrest ⟨d, hd, hdi⟩)
          rw [dictGet_dictSet_self] at hfr
          refine ⟨_, hfr, ?_, rfl, rfl, rfl, rfl⟩
          simp [h90]
      · rw [if_neg h90] at hok
        by_cases hrest : ∃ d ∈ rest, d.student_number = i
        · have := ih _ _ hok hoccr hrest _
            (by rw [dictGet_dictSet_self]) (by exact howbp)
          rcases this with ⟨rec2, hget, hb3, howbp2, hb2, htw, htr⟩
          exact ⟨rec2, hget, hb3, howbp2, hb2, htw, htr⟩
        · have hfr := compareTwoGo_frame w2 i rest _ _ hok
            (fun d hd hdi => hrest ⟨d, hd, hdi⟩)
          rw [dictGet_dictSet_self] at hfr
          refine ⟨_, hfr, ?_, howbp, rfl, rfl, rfl⟩
          simp [h90]
    · intro rec hrec howbp
      simp only [compareTwoGo] at hok
      have hex' : ∃ d ∈ rest, d.student_number = i := by
        rcases hex with ⟨d, hd, hdi⟩
        cases List.mem_cons.mp hd with
        | inl h => exact absurd (h ▸ hdi) hsi
        | inr h => exact ⟨d, h, hdi⟩
      have hoccr : ∀ d ∈ rest, d.student_number = i → d = c :=
        fun d hd hdi => hocc d (List.mem_cons_of_mem s hd) hdi
      split at hok
      · exact ih _ _ hok hoccr hex' rec hrec howbp
      · split at hok
        · exact absurd hok (by simp)
        · split at hok
          · split at hok
            · exact absurd hok (by simp)
            · exact absurd hok (by simp)
            · exact ih _ _ hok hoccr hex' rec
                (by rw [dictGet_dictSet_ne _ _ _ _ (Ne.symm hsi)]; exact hrec) howbp
          · exact ih _ _ hok hoccr hex' rec
              (by rw [dictGet_dictSet_ne _ _ _ _ (Ne.symm hsi)]; exact hrec) howbp

/- Helper lemmas about priming, the ledger transformation, the MED merge
and the school-code mapping. -/

theorem prime_foldl_inv :
    ∀ (cur : List AttRow) (r0 : Results),
      (∀ i rec, dictGet r0 i = some rec →
        rec.below_90_1_week = decide (rec.current_week_att_percent < (90 : ℚ))) →
      ∀ i rec,
        dictGet (cur.foldl (fun r s => dictSet r s.student_number (primeRec s)) r0) i =
          some rec →
        rec.below_90_1_week = decide (rec.current_week_att_percent < (90 : ℚ)) := by
  intro cur
  induction cur with
  | nil => intro r0 h0 i rec hget; exact h0 i rec hget
  | cons s rest ih =>
    intro r0 h0 i rec hget
    simp only [List.foldl_cons] at hget
    refine ih _ ?_ i rec hget
    intro j rec2 hj
    rw [dictGet_dictSet] at hj
    by_cases hjs : j = s.student_number
    · rw [if_pos hjs] at hj
      cases hj
      rfl
    · rw [if_neg hjs] at hj
      exact h0 j rec2 hj

theorem clean_age_filter_gt (rows : List LedgerRow)
    (h : ∀ e ∈ rows, (-2 : Int) ≤ e.weekly_value) :
    clean_base_file (rows.map ageEntry) =
      (rows.map ageEntry).filter (fun e => decide ((-3 : Int) < e.weekly_value)) := by
  unfold clean_base_file
  apply List.filter_congr
  intro x hx
  rcases List.mem_map.mp hx with ⟨e, he, rfl⟩
  have hge := h e he
  simp only [ageEntry]
  rw [decide_eq_decide]
  constructor
  · intro hne; omega
  · intro hlt; omega

theorem clean_age_filter_ne (rows : List LedgerRow) :
    clean_base_file (rows.map ageEntry) =
      (rows.filter (fun e => decide (e.weekly_value ≠ -2))).map ageEntry := by
  unfold clean_base_file
  rw [List.filter_map]
  refine congrArg (List.map ageEntry) (List.filter_congr ?_)
  intro e _
  simp only [Function.comp, ageEntry]
  rw [decide_eq_decide]
  constructor
  · intro hne; omega
  · intro hne; omega

theorem dictGet_process_med :
    ∀ (med medp : List MedRow) (r : Results) (i : Int) (rec : ResultRec),
      dictGet (process_additional_data_med med medp r) i = some rec →
      ∃ data, dictGet r i = some data ∧
        rec = { data with
          medFullDays := some (med.countP (fun x => x.student_number == i)),
          medPartDays := some (medp.countP (fun x => x.student_number == i)),
          medAbsencePercent := some (calculate_med_absence_percentage
            (med.countP (fun x => x.student_number == i))
            (medp.countP (fun x => x.student_number == i))),
          bestCaseAttendancePercent := some (min (data.current_week_att_percent +
            calculate_med_absence_percentage
              (med.countP (fun x => x.student_number == i))
              (medp.countP (fun x => x.student_number == i))) 100) } := by
  intro med medp r
  induction r with
  | nil => intro i rec h; simp [process_additional_data_med, dictGet] at h
  | cons kv tl ih =>
    intro i rec h
    simp only [process_additional_data_med, List.map_cons, dictGet] at h
    by_cases hk : kv.1 = i
    · rw [if_pos (by simpa using hk)] at h
      refine ⟨kv.2, by simp [dictGet, hk], ?_⟩
      rw [hk] at h
      cases h
      rfl
    · rw [if_neg (by simpa using hk)] at h
      obtain ⟨data, hget, hrec⟩ := ih i rec h
      exact ⟨data, by simp [dictGet, hk, hget], hrec⟩

theorem residenceIsUnknownNone_eq_false (f : SchoolField) :
    residenceIsUnknownNone f = false ↔
      f ≠ SchoolField.name "Unknown School (Code: None)" := by
  cases f <;> simp [residenceIsUnknownNone]

theorem unset_residence_filtered :
    ∀ (school_dict : List (Int × String)) (r : Results) (i : Int),
      (∀ kv ∈ r, kv.1 = i → kv.2.school_of_residence = SchoolField.unset) →
      dictGet (filter_unknown_schools (map_school_codes r school_dict)) i = none := by
  intro school_dict r
  induction r with
  | nil => intro i _; rfl
  | cons kv tl ih =>
    intro i h
    have htl := fun d hd hdi => h d (List.mem_cons_of_mem kv hd) hdi
    simp only [map_school_codes, List.map_cons, filter_unknown_schools, List.filter_cons]
    by_cases hk : kv.1 = i
    · have hunset := h kv (List.mem_cons_self kv tl) hk
      rw [hunset]
      simp only [schoolName, residenceIsUnknownNone, beq_self_eq_true, Bool.not_true,
        if_false, Bool.false_eq_true]
      simpa [map_school_codes, filter_unknown_schools] using ih i htl
    · by_cases hkeep :
        residenceIsUnknownNone
          (SchoolField.name (schoolName school_dict kv.2.school_of_residence))
      · simp only [hkeep, Bool.not_true]
        simpa [map_school_codes, filter_unknown_schools] using ih i htl
      · simp only [Bool.not_eq_true'] at hkeep
        simp only [hkeep, Bool.not_false, if_true, dictGet]
        rw [if_neg (by simpa using hk)]
        simpa [map_school_codes, filter_unknown_schools] using ih i htl

/- Claim theorems. -/

/-- C1: For every student identifier present in the current snapshot and in
both the one-week-back and two-weeks-back snapshots, after
`compare_one_week_back` and `compare_two_weeks_back` have run (on results
primed by `prime_results`), `below_90_2_weeks` is true iff (current
percent < 90 and one-week-back percent < 90), and `below_90_3_weeks` is
true iff (current percent < 90 and one-week-back percent < 90 and
two-weeks-back percent < 90), where — as in the embedding of
`compare_two_weeks_back` — the one-week value feeding the three-week flag
is read from the already-stored `one_week_back_percent` field of the
results record. -/
theorem below90_flags_conjunctive
    (cur w1 w2 : List AttRow) (i : Int) (c m1 m2 : AttRow)
    (hc : c ∈ cur) (hci : c.student_number = i)
    (huniq : ∀ d ∈ cur, d.student_number = i → d = c)
    (hm1 : findStudent w1 i = some m1) (hm2 : findStudent w2 i = some m2)
    (r1 r2 : Results)
    (h1 : compare_one_week_back cur w1 (prime_results cur) = .ok r1)
    (h2 : compare_two_weeks_back cur w2 r1 = .ok r2)
    (rec : ResultRec) (hrec : dictGet r2 i = some rec) :
    (rec.below_90_2_weeks = some true ↔
      (c.ind_att_percent < 90 ∧ m1.ind_att_percent < 90)) ∧
    (rec.below_90_3_weeks = some true ↔
      (c.ind_att_percent < 90 ∧ m1.ind_att_percent < 90 ∧
        m2.ind_att_percent < 90)) := by
  simp only [compare_one_week_back, findStudent_not_nil hm1, Bool.false_eq_true,
    if_false] at h1
  simp only [compare_two_weeks_back, findStudent_not_nil hm2, Bool.false_eq_true,
    if_false] at h2
  have hex : ∃ d ∈ cur, d.student_number = i := ⟨c, hc, hci⟩
  obtain ⟨rec1, hget1, howbp1, hb2, _⟩ :=
    compareOneGo_found w1 i c m1 hm1 cur none _ r1 h1 huniq hex
  obtain ⟨rec2, hget2, hb3, _, hb2pres, _, _⟩ :=
    compareTwoGo_found w2 i c m2 m1.ind_att_percent hm2 cur r1 r2 h2 huniq hex
      rec1 hget1 howbp1
  rw [hrec] at hget2
  injection hget2 with hr
  subst hr
  constructor
  · rw [hb2pres, hb2]
    simp
  · rw [hb3]
    simp [and_assoc]

unseal Rat.add Rat.mul Rat.inv Rat.sub Rat.ofScientific in
/-- Witness for C1 on a concrete run: student 1 at 80 percent now, 85 one
week back, 95 two weeks back; `below_90_2_weeks = some true` and
`below_90_3_weeks = some false`, matching the two conjunctions. -/
theorem below90_flags_conjunctive_witness :
    c1Cur80 ∈ [c1Cur80] ∧
    findStudent [c1Prior85] 1 = some c1Prior85 ∧
    findStudent [c1Prior95] 1 = some c1Prior95 ∧
    compare_one_week_back [c1Cur80] [c1Prior85] (prime_results [c1Cur80]) = .ok c1Res1 ∧
    compare_two_weeks_back [c1Cur80] [c1Prior95] c1Res1 = .ok c1Res2 ∧
    dictGet c1Res2 1 = some c1RecOut ∧
    ((c1RecOut.below_90_2_weeks = some true ↔
        (c1Cur80.ind_att_percent < 90 ∧ c1Prior85.ind_att_percent < 90)) ∧
      (c1RecOut.below_90_3_weeks = some true ↔
        (c1Cur80.ind_att_percent < 90 ∧ c1Prior85.ind_att_percent < 90 ∧
          c1Prior95.ind_att_percent < 90))) := by
  refine ⟨by simp, by decide, by decide, by decide, by decide, by decide, ?_⟩
  exact below90_flags_conjunctive [c1Cur80] [c1Prior85] [c1Prior95] 1
    c1Cur80 c1Prior85 c1Prior95 (by simp) rfl
    (by intro d hd _; simpa using hd) (by decide) (by decide)
    c1Res1 c1Res2 (by decide) (by decide) c1RecOut (by decide)

unseal Rat.add Rat.mul Rat.inv Rat.sub Rat.ofScientific in
/-- C2 (code bug): the claim says `consolidate_attendance` returns one
record per student, with percent recomputed on final totals, and excludes
students whose total possible hours are 0.  On a snapshot whose first row
carries 0 possible hours, line 326 of the source
(`... = round(attendance_percentage, 2)`, executed unconditionally)
references the local `attendance_percentage` before any assignment, so the
function raises UnboundLocalError instead of returning the empty
consolidation the claim (and the spec, and the code's own comment at line
322) describe. -/
theorem consolidate_zero_possible_crash :
    consolidate_attendance [zeroHoursRow] = .error PyErr.nameError := by decide

unseal Rat.add Rat.mul Rat.inv Rat.sub Rat.ofScientific in
/-- C4 (code bug): `compare_one_week_back` is claimed to give every
unmatched current-week student `one_week_back_percent = null`,
`trend_1_week = "N/A"` and `below_90_2_weeks = false`.  The code assigns
the local `one_week_att_percent` only inside `if one_week_student:`, so an
unmatched student reuses the previous iteration's value: student 2 (no
one-week-back row) is stored with the stale percent 95 of student 1 and
trend "Down" instead of null and "N/A"; and when the very first student is
unmatched the code raises UnboundLocalError. -/
theorem compare_one_week_stale_prior :
    ((compare_one_week_back [c4RowA, c4RowB] [c4Prior95]
        (prime_results [c4RowA, c4RowB])).map
      (fun r => (dictGet r 2).map (fun rec =>
        (rec.one_week_back_percent, rec.trend_1_week, rec.below_90_2_weeks))) =
      .ok (some (some (some 95), some "Down", some false))) ∧
    compare_one_week_back [c4RowB] [c4Prior95] (prime_results [c4RowB]) =
      .error PyErr.nameError := by
  exact ⟨by decide, by decide⟩

/-- C3: when the base file exists (with every entry at age -2 or younger,
as in every ledger the program itself writes) and testing mode is off,
`update_base_file` decrements every age by exactly 1, drops exactly the
entries now at age ≤ -3 — equivalently exactly those that were at -2
before the call — appends the current snapshot at age -1, and persists the
result as the whole base file. -/
theorem ledger_rollover_ages_and_drops (fs : FileSys) (cur : List AttRow)
    (rows : List LedgerRow) (hbase : fs.base = .content rows)
    (hages : ∀ e ∈ rows, (-2 : Int) ≤ e.weekly_value) :
    (update_base_file false cur fs).1.base =
      .content (((rows.map ageEntry).filter
          (fun e => decide ((-3 : Int) < e.weekly_value))) ++
        prepare_current_week_data cur) ∧
    (update_base_file false cur fs).1.base =
      .content (((rows.filter (fun e => decide (e.weekly_value ≠ -2))).map ageEntry) ++
        prepare_current_week_data cur) ∧
    (update_base_file false cur fs).2.2 = Except.ok () := by
  have hu : (update_base_file false cur fs).1.base =
      .content (clean_base_file (rows.map ageEntry) ++ prepare_current_week_data cur) := by
    simp [update_base_file, hbase]
  refine ⟨?_, ?_, ?_⟩
  · rw [hu, clean_age_filter_gt rows hages]
  · rw [hu, clean_age_filter_ne rows]
  · simp [update_base_file, hbase]

/-- Witness for C3 at a concrete ledger with one entry at -1 and one at
-2: the -2 entry is dropped, the -1 entry ages to -2, and the current
snapshot is appended at -1. -/
theorem ledger_rollover_ages_and_drops_witness :
    ((-2 : Int) ≤ -1 ∧ (-2 : Int) ≤ -2) ∧
    (update_base_file false [c1Cur80] c3Fs).1.base =
      .content (((c3Rows.map ageEntry).filter
          (fun e => decide ((-3 : Int) < e.weekly_value))) ++
        prepare_current_week_data [c1Cur80]) ∧
    (update_base_file false [c1Cur80] c3Fs).1.base =
      .content (((c3Rows.filter (fun e => decide (e.weekly_value ≠ -2))).map ageEntry) ++
        prepare_current_week_data [c1Cur80]) := by
  have h := ledger_rollover_ages_and_drops c3Fs [c1Cur80] c3Rows rfl (by decide)
  exact ⟨by decide, h.1, h.2.1⟩

/-- C5: whenever the base file exists and testing mode is off,
`update_base_file` stores a backup holding the exact pre-mutation base
file, the first file event is the backup copy, and any write of the base
file happens strictly after it (the trace is exactly backup-then-write). -/
theorem backup_before_mutate (fs : FileSys) (cur : List AttRow)
    (hbase : fs.base ≠ .missing) :
    (update_base_file false cur fs).1.backups = fs.backups ++ [fs.base] ∧
    ((update_base_file false cur fs).2.1).head? = some FsEvent.backupWrite ∧
    (FsEvent.baseWrite ∈ (update_base_file false cur fs).2.1 →
      (update_base_file false cur fs).2.1 =
        [FsEvent.backupWrite, FsEvent.baseWrite]) := by
  cases hb : fs.base with
  | missing => exact absurd hb hbase
  | unreadable => refine ⟨?_, ?_, ?_⟩ <;> simp [update_base_file, create_backup, hb]
  | content rows => refine ⟨?_, ?_, ?_⟩ <;> simp [update_base_file, create_backup, hb]

/-- Witness for C5 at a concrete file system. -/
theorem backup_before_mutate_witness :
    c5Fs.base ≠ FileContent.missing ∧
    (update_base_file false [c4RowA] c5Fs).1.backups = c5Fs.backups ++ [c5Fs.base] ∧
    ((update_base_file false [c4RowA] c5Fs).2.1).head? = some FsEvent.backupWrite ∧
    (FsEvent.baseWrite ∈ (update_base_file false [c4RowA] c5Fs).2.1 →
      (update_base_file false [c4RowA] c5Fs).2.1 =
        [FsEvent.backupWrite, FsEvent.baseWrite]) := by
  have h := backup_before_mutate c5Fs [c4RowA] (by decide)
  exact ⟨by decide, h.1, h.2.1, h.2.2⟩

/-- C6: a record is selected by `filter_subset_by_conditions` iff the
strict six-way conjunction holds — below-90-for-3-weeks, current < 90,
two-week trend "Down", one-week trend "Down", below-90-for-2-weeks and
current ≥ 70 — provided `below_90_1_week` equals (current percent < 90)
on every record of the frame; the second conjunct shows `prime_results`
establishes exactly that, so the code's extra `below_90_1_week = True`
filter never changes the selected set. -/
theorem letter_subset_six_conditions :
    (∀ (l : List ResultRec),
      (∀ r ∈ l, r.below_90_1_week = decide (r.current_week_att_percent < (90 : ℚ))) →
      ∀ r : ResultRec,
        (r ∈ filter_subset_by_conditions l ↔
          (r ∈ l ∧ r.below_90_3_weeks = some true ∧
            r.current_week_att_percent < (90 : ℚ) ∧
            r.trend_2_weeks = some "Down" ∧
            r.trend_1_week = some "Down" ∧
            r.below_90_2_weeks = some true ∧
            (70 : ℚ) ≤ r.current_week_att_percent))) ∧
    (∀ (cur : List AttRow) (i : Int) (rec : ResultRec),
      dictGet (prime_results cur) i = some rec →
      rec.below_90_1_week = decide (rec.current_week_att_percent < (90 : ℚ))) := by
  constructor
  · intro l hb1 r
    simp only [filter_subset_by_conditions, List.mem_filter, Bool.and_eq_true,
      beq_iff_eq, decide_eq_true_eq, ge_iff_le]
    constructor
    · rintro ⟨⟨⟨⟨⟨⟨hm, h3, hlt⟩, h2w⟩, h1w⟩, hb2⟩, _⟩, hge⟩
      exact ⟨hm, h3, hlt, h2w, h1w, hb2, hge⟩
    · rintro ⟨hm, h3, hlt, h2w, h1w, hb2, hge⟩
      refine ⟨⟨⟨⟨⟨⟨hm, h3, hlt⟩, h2w⟩, h1w⟩, hb2⟩, ?_⟩, hge⟩
      rw [hb1 r hm]
      simp [hlt]
  · intro cur i rec h
    exact prime_foldl_inv cur [] (by intro j r2 hj; simp [dictGet] at hj) i rec h

/-- Witness for C6: a concrete record meeting all six conditions is
selected. -/
theorem letter_subset_six_conditions_witness :
    c6LetterRec.below_90_1_week =
      decide (c6LetterRec.current_week_att_percent < (90 : ℚ)) ∧
    c6LetterRec ∈ filter_subset_by_conditions [c6LetterRec] := by
  refine ⟨by decide, ?_⟩
  refine ((letter_subset_six_conditions.1 [c6LetterRec] ?_ c6LetterRec).mpr ?_)
  · intro r hr
    rw [List.mem_singleton] at hr
    subst hr
    decide
  · exact ⟨by simp, rfl, by decide, rfl, rfl, rfl, by decide⟩

unseal Rat.add Rat.mul Rat.inv Rat.sub Rat.ofScientific in
/-- C7: after the MED/MEDP merge, every student record carries
`Med Absence Percent` = round((full MED days + part MED days) /
TOTAL_SCHOOL_DAYS × 100, 2) — each part day weighted like a full day —
and `Best Case Attendance Percent` = min(current + that equivalent, 100);
in particular 2 full and 1 part day over 160 school days give 1.88, and
with current 83.33 the best case is 85.21. -/
theorem med_best_case_formula (med medp : List MedRow) (r : Results) (i : Int)
    (rec : ResultRec)
    (h : dictGet (process_additional_data_med med medp r) i = some rec) :
    rec.medAbsencePercent = some (round2
      ((((med.countP (fun x => x.student_number == i)) +
         (medp.countP (fun x => x.student_number == i)) : Nat) : ℚ) /
        TOTAL_SCHOOL_DAYS * 100)) ∧
    rec.bestCaseAttendancePercent = some (min (rec.current_week_att_percent +
      calculate_med_absence_percentage
        (med.countP (fun x => x.student_number == i))
        (medp.countP (fun x => x.student_number == i))) 100) ∧
    calculate_med_absence_percentage 2 1 = 1.88 ∧
    min ((83.33 : ℚ) + calculate_med_absence_percentage 2 1) 100 = 85.21 := by
  obtain ⟨data, hget, hrec⟩ := dictGet_process_med med medp r i rec h
  subst hrec
  refine ⟨?_, rfl, by decide, by decide⟩
  show some (calculate_med_absence_percentage _ _) = _
  rw [calculate_med_absence_percentage,
    if_neg (by norm_num [TOTAL_SCHOOL_DAYS])]

unseal Rat.add Rat.mul Rat.inv Rat.sub Rat.ofScientific in
/-- Witness for C7 at a concrete run: student 5 with 2 full and 1 part
MED day at 83.33 percent gets `Med Absence Percent = 1.88` and
`Best Case Attendance Percent = 85.21`. -/
theorem med_best_case_formula_witness :
    dictGet (process_additional_data_med c7Med c7Medp c7Res) 5 = some c7RecOut ∧
    c7RecOut.medAbsencePercent = some (round2
      ((((c7Med.countP (fun x => x.student_number == 5)) +
         (c7Medp.countP (fun x => x.student_number == 5)) : Nat) : ℚ) /
        TOTAL_SCHOOL_DAYS * 100)) ∧
    c7RecOut.medAbsencePercent = some 1.88 ∧
    c7RecOut.bestCaseAttendancePercent = some 85.21 ∧
    calculate_med_absence_percentage 2 1 = 1.88 ∧
    min ((83.33 : ℚ) + calculate_med_absence_percentage 2 1) 100 = 85.21 := by
  have h := med_best_case_formula c7Med c7Medp c7Res 5 c7RecOut (by decide)
  exact ⟨by decide, h.1, by decide, by decide, h.2.2.1, h.2.2.2⟩

unseal Rat.add Rat.mul Rat.inv Rat.sub Rat.ofScientific in
/-- C8 counterexample: the claim says the pipeline treats the empty table
that `read_csv` fails soft to as "no data this period" rather than a
fatal error.  When the base (ledger) file exists but is unreadable,
`read_csv` does return the empty DataFrame — but `read_previous_weeks`
then subscripts the missing `weekly_value` column, and the pipeline dies
with a KeyError. -/
theorem unreadable_ledger_fatal :
    (read_csv (FileContent.unreadable : FileContent LedgerRow)).1 = PyDF.empty ∧
    input_attendance_data (FileContent.content [c8Row]) FileContent.unreadable =
      .error PyErr.keyError := by
  exact ⟨rfl, by decide⟩

/-- C8 (amended): `read_csv` itself never raises — a missing or unreadable
source yields the empty DataFrame plus a logged warning — and a missing
input file is treated as "no data this period": a missing ledger gives
empty prior-week collections, a missing current-week extract gives an
empty current snapshot.  But when the ledger file exists and is
unreadable, the empty table causes a KeyError in `read_previous_weeks`
(the LedgerCorruption case of spec §7(d)), a fatal error rather than
reduced data. -/
theorem read_csv_fails_soft :
    (∀ (α : Type) (f : FileContent α), (f = .missing ∨ f = .unreadable) →
      (read_csv f).1 = PyDF.empty ∧ (read_csv f).2.isSome = true) ∧
    (∀ (new_report : FileContent AttRow),
      input_attendance_data new_report FileContent.missing =
        (consolidate_attendance (df_to_dict (read_csv new_report).1)).map
          (fun cur => (cur, [], []))) ∧
    (∀ (new_report : FileContent AttRow) (cur : List AttRow),
      consolidate_attendance (df_to_dict (read_csv new_report).1) = .ok cur →
      input_attendance_data new_report FileContent.unreadable =
        .error PyErr.keyError) ∧
    (∀ (rows : List LedgerRow),
      input_attendance_data FileContent.missing (FileContent.content rows) =
        .ok ([], (rows.filter (fun e => e.weekly_value == -1)).map (fun e => e.row),
          (rows.filter (fun e => e.weekly_value == -2)).map (fun e => e.row))) := by
  refine ⟨?_, ?_, ?_, ?_⟩
  · rintro α f (rfl | rfl) <;> exact ⟨rfl, rfl⟩
  · intro new_report
    cases hc : consolidate_attendance (df_to_dict (read_csv new_report).1) with
    | error e => simp [input_attendance_data, hc, Except.map]
    | ok cur => simp [input_attendance_data, hc, base_file_exists, Except.map]
  · intro new_report cur hc
    simp only [input_attendance_data, hc]
    simp [base_file_exists, read_previous_weeks, read_csv, read_csv_attempt,
      PyDF.empty]
  · intro rows
    simp [input_attendance_data, base_file_exists, read_previous_weeks,
      read_csv, read_csv_attempt, df_to_dict, consolidate_attendance,
      consolidateGo, PyDF.empty, Except.map]

unseal Rat.add Rat.mul Rat.inv Rat.sub Rat.ofScientific in
/-- Witness for C8 (amended) at concrete files. -/
theorem read_csv_fails_soft_witness :
    ((FileContent.missing : FileContent AttRow) = FileContent.missing ∨
      (FileContent.missing : FileContent AttRow) = FileContent.unreadable) ∧
    (read_csv (FileContent.missing : FileContent AttRow)).1 = PyDF.empty ∧
    consolidate_attendance
      (df_to_dict (read_csv (FileContent.content [c8Row])).1) = .ok [c8Row] ∧
    input_attendance_data (FileContent.content [c8Row]) FileContent.unreadable =
      .error PyErr.keyError := by
  refine ⟨Or.inl rfl, (read_csv_fails_soft.1 AttRow _ (Or.inl rfl)).1,
    by decide, read_csv_fails_soft.2.2.1 _ [c8Row] (by decide)⟩

/-- C9: with the test-mode flag set, `update_base_file` leaves the file
system untouched (no backup, no write, no error), a dry run leaves the
file system unchanged, and a second dry run on the file system produced
by the first returns exactly the same results. -/
theorem dry_run_no_mutation_determinism (new_report : FileContent AttRow)
    (fs : FileSys) (cur : List AttRow) :
    update_base_file true cur fs = (fs, [], Except.ok ()) ∧
    (attendance_run true new_report fs).2.1 = fs ∧
    (attendance_run true new_report ((attendance_run true new_report fs).2.1)).1 =
      (attendance_run true new_report fs).1 := by
  have h2 : (attendance_run true new_report fs).2.1 = fs := by
    cases hin : input_attendance_data new_report fs.base with
    | error e => simp [attendance_run, hin]
    | ok t =>
      obtain ⟨cur2, w1, w2⟩ := t
      cases hfl : flag_attendance_issues cur2 w1 w2 with
      | error e => simp [attendance_run, hin, hfl]
      | ok res => simp [attendance_run, hin, hfl]
  exact ⟨rfl, h2, by rw [h2]⟩

/-- C10: `map_school_codes` replaces a residence code absent from the
school dict with the sentinel string (and a missing code — Python `None` —
with `"Unknown School (Code: None)"`); `filter_unknown_schools` removes
exactly the records whose residence equals that sentinel, leaving every
other record unchanged; so a student whose residence code was never set is
absent from the results dict that every building, uncategorized and
district report is generated from. -/
theorem unknown_school_filtering :
    (∀ (school_dict : List (Int × String)) (c : Int),
      school_dict.find? (fun kv => kv.1 == c) = none →
      schoolName school_dict (SchoolField.code c) =
        "Unknown School (Code: " ++ toString c ++ ")") ∧
    (∀ (r : Results) (kv : Int × ResultRec),
      kv ∈ filter_unknown_schools r ↔
        (kv ∈ r ∧
          kv.2.school_of_residence ≠ SchoolField.name "Unknown School (Code: None)")) ∧
    (∀ (school_dict : List (Int × String)) (r : Results) (i : Int),
      (∀ kv ∈ r, kv.1 = i → kv.2.school_of_residence = SchoolField.unset) →
      dictGet (filter_unknown_schools (map_school_codes r school_dict)) i = none) := by
  refine ⟨?_, ?_, unset_residence_filtered⟩
  · intro dict c h
    simp [schoolName, h]
  · intro r kv
    simp only [filter_unknown_schools, List.mem_filter, Bool.not_eq_true',
      residenceIsUnknownNone_eq_false]

/-- Witness for C10: code 99 is not in the dict and maps to the sentinel
with its code; student 2, whose residence was never set, is gone from the
mapped-and-filtered results. -/
theorem unknown_school_filtering_witness :
    c10Dict.find? (fun kv => kv.1 == (99 : Int)) = none ∧
    schoolName c10Dict (SchoolField.code 99) =
      "Unknown School (Code: " ++ toString (99 : Int) ++ ")" ∧
    dictGet (filter_unknown_schools (map_school_codes c10Res c10Dict)) 2 = none := by
  refine ⟨rfl, unknown_school_filtering.1 c10Dict 99 rfl, ?_⟩
  refine unknown_school_filtering.2.2 c10Dict c10Res 2 ?_
  intro kv hkv hk
  simp only [c10Res, List.mem_singleton] at hkv
  subst hkv
  rfl
